import Mathlib

/-!
Verification development for the Prius path-following controller
(`car_demo/src/PriusControllerRos.cpp`): a shallow embedding of the
tracking-session state machine, the control-tick routine `advance`, the
plan-intake callback, the command service and the telemetry cache,
together with theorems about the session protocol.
-/

namespace CarDemo

/-- Gear of an actuator command. Modelled from the spec: the gear
enumeration of `prius_msgs` (`Forward | Reverse | Neutral | Park`, §3);
the message package itself is not among the provided sources. -/
inductive Gear where
  | Forward
  | Reverse
  | Neutral
  | Park
  deriving DecidableEq, Repr

/-- An actuator command: gear, steering value and throttle value,
mirroring the fields of `prius_msgs::PriusControl` that
`PriusControllerRos` assigns (`gear_`, `steer_`, `throttle_`). -/
structure PriusControl where
  gear_ : Gear
  steer_ : ℚ
  throttle_ : ℚ
  deriving DecidableEq, Repr

/-- Modelled from the spec: the Fail-Safe command
`prius_msgs::PriusControl::getFailProofControlCommand()` (the message
package is not among the provided sources) — zero/near-zero throttle,
neutral steering, forward gear (§4.6). -/
def PriusControl.getFailProofControlCommand : PriusControl :=
  { gear_ := Gear.Forward, steer_ := 0, throttle_ := 0 }

/-- Pose as in `geometry_msgs`: position and orientation quaternion. A
ROS message is value-initialised, so every numeric field defaults to
zero. -/
structure Pose where
  x : ℚ := 0
  y : ℚ := 0
  z : ℚ := 0
  qx : ℚ := 0
  qy : ℚ := 0
  qz : ℚ := 0
  qw : ℚ := 0
  deriving DecidableEq, Repr

/-- Twist as in `geometry_msgs`: linear and angular velocity, all fields
value-initialised to zero. -/
structure Twist where
  vx : ℚ := 0
  vy : ℚ := 0
  vz : ℚ := 0
  wx : ℚ := 0
  wy : ℚ := 0
  wz : ℚ := 0
  deriving DecidableEq, Repr

/-- The parts of `nav_msgs::Odometry` the controller uses: the nested
`pose.pose` and `twist.twist` fields (the covariances are never read),
flattened here. -/
structure Odometry where
  pose : Pose := {}
  twist : Twist := {}
  deriving DecidableEq, Repr

/-- Modelled from the spec: one path segment of a plan (§3). The
controller never inspects the content of a segment, only the number of
segments, so the content is abstracted to a tag that keeps distinct
segments distinguishable. -/
structure PathSegment where
  tag : Nat
  deriving DecidableEq, Repr

/-- The plan message `se2_navigation_msgs::Path`: an ordered list of
path segments (field `segment_`). -/
structure Path where
  segment_ : List PathSegment
  deriving DecidableEq, Repr

/-- The tagged command variants of
`se2_navigation_msgs::ControllerCommand::Command` dispatched by
`controllerCommandService`; any further variant falls into the default
branch, modelled by `Unknown`. -/
inductive Command where
  | StartTracking
  | StopTracking
  | Unknown
  deriving DecidableEq, Repr

/-- The mutable state of `PriusControllerRos`: the three session flags,
the tracking-status publication flag and the cached odometry
(`priusState_`). -/
structure ControllerState where
  planReceived_ : Bool
  receivedStartTrackingCommand_ : Bool
  currentlyExecutingPlan_ : Bool
  publishTrackingStatus_ : Bool
  priusState_ : Odometry
  deriving DecidableEq, Repr

/-- Modelled from the spec: the state at system start — the session is
created once in `Idle`, so all flags are clear (§3), and the cached
odometry is the value-initialised message.  The member initialisers
live in the header, which is not among the provided sources. -/
def initialState : ControllerState :=
  { planReceived_ := false
    receivedStartTrackingCommand_ := false
    currentlyExecutingPlan_ := false
    publishTrackingStatus_ := false
    priusState_ := {} }

/-- The externally computed outcome of one `pathTracker_->advance()`
call, together with the tracker outputs `getSteeringAngle()` and
`getLongitudinalVelocity()` that the controller reads afterwards. -/
structure TrackerTickResult where
  advanceOk : Bool
  steeringAngle : ℚ
  longitudinalVelocity : ℚ
  deriving DecidableEq, Repr

/-- Source function `PriusControllerRos::stopTracking`: clears the three
session flags and calls `pathTracker_->stopTracking()` once; the second
component counts those external tracker calls. -/
def stopTracking (s : ControllerState) : ControllerState × Nat :=
  ({ s with currentlyExecutingPlan_ := false
            receivedStartTrackingCommand_ := false
            planReceived_ := false }, 1)

/-- Result of one control tick: the state after the tick, the single
published actuator command, and how often `pathTracker_->stopTracking()`
was called during the tick. -/
structure TickOutcome where
  state : ControllerState
  published : PriusControl
  trackerStopCalls : Nat
  deriving DecidableEq, Repr

/-- The fixed command assembled at the end of
`PriusControllerRos::advance` (source lines 87 to 89): gear Forward,
steer 0.8, throttle 0.02. -/
def fixedControl : PriusControl :=
  { gear_ := Gear.Forward, steer_ := 0.8, throttle_ := 0.02 }

/-- Source function `PriusControllerRos::advance`, one control tick.  If
the plan-received and start-command flags are not both set, the
Fail-Safe command is published and nothing else happens.  Otherwise
`pathTracker_->advance()` runs; on failure the session is reset via
`stopTracking` and `publishTrackingStatus_` is set — the local variable
`controlCommand`, assigned the Fail-Safe command there, is never
published in the source — while on success the steering angle and the
longitudinal velocity are read and discarded (the conversion is an open
todo in the source).  In either of these two branches the local
`control` with gear Forward, steer 0.8 and throttle 0.02 is what gets
published. -/
def advance (s : ControllerState) (tr : TrackerTickResult) : TickOutcome :=
  if !(s.planReceived_ && s.receivedStartTrackingCommand_) then
    { state := s
      published := PriusControl.getFailProofControlCommand
      trackerStopCalls := 0 }
  else if !tr.advanceOk then
    { state := { (stopTracking s).1 with publishTrackingStatus_ := true }
      published := fixedControl
      trackerStopCalls := (stopTracking s).2 }
  else
    { state := s
      published := fixedControl
      trackerStopCalls := 0 }

/-- Result of the path subscriber callback: the state afterwards and
whether the acceptance branch was reached (the branch that logs the
received plan and sets `planReceived_`; the two earlier returns log a
rejection warning instead). -/
structure PathOutcome where
  state : ControllerState
  accepted : Bool
  deriving DecidableEq, Repr

/-- Source function `PriusControllerRos::pathCallback`: rejects the plan
while `currentlyExecutingPlan_` is set, rejects an empty plan, and
otherwise sets `planReceived_`.  The path itself is not retained
anywhere in the controller. -/
def pathCallback (s : ControllerState) (path : Path) : PathOutcome :=
  if s.currentlyExecutingPlan_ then
    { state := s, accepted := false }
  else if path.segment_.isEmpty then
    { state := s, accepted := false }
  else
    { state := { s with planReceived_ := true }, accepted := true }

/-- Source function `PriusControllerRos::priusStateCallback`: overwrites
the cached odometry. -/
def priusStateCallback (s : ControllerState) (odometry : Odometry) :
    ControllerState :=
  { s with priusState_ := odometry }

/-- Result of the current-state service: the state afterwards, the
response fields `res.pose` and `res.twist`, and the service return
value. -/
structure QueryOutcome where
  state : ControllerState
  pose : Pose
  twist : Twist
  ack : Bool
  deriving DecidableEq, Repr

/-- Source function `PriusControllerRos::currentStateRequestService`:
copies `priusState_.pose.pose` and `priusState_.twist.twist` into the
response and returns true; the controller state is untouched. -/
def currentStateRequestService (s : ControllerState) : QueryOutcome :=
  { state := s
    pose := s.priusState_.pose
    twist := s.priusState_.twist
    ack := true }

/-- Source function `PriusControllerRos::processStartTrackingCommand`:
rejected without a received plan, rejected while already executing a
plan, otherwise sets `currentlyExecutingPlan_` and
`receivedStartTrackingCommand_`. -/
def processStartTrackingCommand (s : ControllerState) : ControllerState :=
  if !s.planReceived_ then s
  else if s.currentlyExecutingPlan_ then s
  else { s with currentlyExecutingPlan_ := true
                receivedStartTrackingCommand_ := true }

/-- Source function `PriusControllerRos::processAbortTrackingCommand`: a
no-op (with a warning) unless a plan is being executed, in which case
`stopTracking` runs; the second component counts the
`pathTracker_->stopTracking()` calls. -/
def processAbortTrackingCommand (s : ControllerState) : ControllerState × Nat :=
  if !s.currentlyExecutingPlan_ then (s, 0) else stopTracking s

/-- Result of the command service: the state afterwards, the number of
`pathTracker_->stopTracking()` calls during the service, and the service
return value (always true — the acknowledgement is unconditional
receipt, not success of the requested transition). -/
structure CommandOutcome where
  state : ControllerState
  trackerStopCalls : Nat
  ack : Bool
  deriving DecidableEq, Repr

/-- Source function `PriusControllerRos::controllerCommandService`:
dispatches the tagged command to the start and abort handlers; an
unknown command only logs a warning. -/
def controllerCommandService (s : ControllerState) (cmd : Command) :
    CommandOutcome :=
  match cmd with
  | Command.StartTracking =>
      { state := processStartTrackingCommand s
        trackerStopCalls := 0
        ack := true }
  | Command.StopTracking =>
      { state := (processAbortTrackingCommand s).1
        trackerStopCalls := (processAbortTrackingCommand s).2
        ack := true }
  | Command.Unknown =>
      { state := s, trackerStopCalls := 0, ack := true }

/-- A controller state reachable from `initialState` by any interleaving
of plan submissions, command services, control ticks and telemetry
updates. -/
inductive Reachable : ControllerState → Prop where
  | init : Reachable initialState
  | plan (s : ControllerState) (p : Path) :
      Reachable s → Reachable (pathCallback s p).state
  | command (s : ControllerState) (c : Command) :
      Reachable s → Reachable (controllerCommandService s c).state
  | tick (s : ControllerState) (tr : TrackerTickResult) :
      Reachable s → Reachable (advance s tr).state
  | telemetry (s : ControllerState) (o : Odometry) :
      Reachable s → Reachable (priusStateCallback s o)

/-- Modelled from the spec (§4.5): the Telemetry Cache starts empty. -/
def telemetryInitSpec : Option Odometry := none

/-- Modelled from the spec (§4.5): `update(VehicleState)` overwrites the
cached state. -/
def telemetryUpdateSpec (o : Odometry) (_cache : Option Odometry) :
    Option Odometry := some o

/-- Modelled from the spec (§4.5): `current()` returns the last observed
state or empty if none has been received yet. -/
def telemetryCurrentSpec (cache : Option Odometry) : Option Odometry := cache

/-- A session in the Tracking state: plan received, start command
received, and the plan marked as currently executing. -/
def trackingState : ControllerState :=
  { planReceived_ := true
    receivedStartTrackingCommand_ := true
    currentlyExecutingPlan_ := true
    publishTrackingStatus_ := false
    priusState_ := {} }

/-- A tick on which `pathTracker_->advance()` fails. -/
def failingTick : TrackerTickResult :=
  { advanceOk := false, steeringAngle := 0, longitudinalVelocity := 0 }

/-- A concrete non-empty plan P1. -/
def planP1 : Path := { segment_ := [{ tag := 1 }] }

/-- A concrete non-empty plan P2, distinct from P1. -/
def planP2 : Path := { segment_ := [{ tag := 2 }] }

/-- C1: on every control tick at which the plan-received and
start-command flags are not both set — the session is not Tracking — the
published command is exactly the Fail-Safe command, whatever the tracker
would have reported.  Stated for every controller state, hence in
particular for every state reached by any sequence of events. -/
theorem C1_tick_outside_tracking_publishes_failsafe
    (s : ControllerState) (tr : TrackerTickResult)
    (h : ¬(s.planReceived_ = true ∧ s.receivedStartTrackingCommand_ = true)) :
    (advance s tr).published = PriusControl.getFailProofControlCommand := by
  unfold advance
  cases hp : s.planReceived_ <;> cases hr : s.receivedStartTrackingCommand_ <;>
    simp_all

/-- C1 at a concrete input: the initial state, with a tracker that would
have succeeded. -/
theorem C1_witness :
    ¬(initialState.planReceived_ = true ∧
        initialState.receivedStartTrackingCommand_ = true) ∧
      (advance initialState
          { advanceOk := true, steeringAngle := 1, longitudinalVelocity := 2 }
        ).published = PriusControl.getFailProofControlCommand :=
  ⟨by decide,
   C1_tick_outside_tracking_publishes_failsafe _ _ (by decide)⟩

/-- C2, evaluated at the failing input: in the Tracking state with a
failing tracker advance, the tick does clear the three session flags
(the session is Idle afterwards), but the published command is the fixed
command with gear Forward, steer 0.8 and throttle 0.02 — not the
Fail-Safe command that the dead local `controlCommand` was assigned in
the source. -/
theorem C2_failure_tick_publishes_fixed_command :
    (advance trackingState failingTick).state.planReceived_ = false ∧
    (advance trackingState failingTick).state.receivedStartTrackingCommand_
        = false ∧
    (advance trackingState failingTick).state.currentlyExecutingPlan_
        = false ∧
    (advance trackingState failingTick).trackerStopCalls = 1 ∧
    (advance trackingState failingTick).published = fixedControl ∧
    (advance trackingState failingTick).published ≠
      PriusControl.getFailProofControlCommand := by
  refine ⟨rfl, rfl, rfl, rfl, rfl, ?_⟩
  intro hcontra
  have hsteer : (0.8 : ℚ) = 0 := congrArg PriusControl.steer_ hcontra
  norm_num at hsteer

/-- C3 counterexample: after plan P1 has been accepted the session is
PlanStaged, not Idle, yet submitting the distinct plan P2 reaches the
acceptance branch — it is not rejected. -/
theorem C3_counterexample :
    (pathCallback (pathCallback initialState planP1).state planP2).accepted
      = true := rfl

/-- C3 amended: a new plan is rejected, with the state unchanged, only
while a plan is being executed; while a plan is merely staged (plan
received but not executing), a further non-empty plan is accepted, the
state again unchanged since `planReceived_` is already set. -/
theorem C3_reject_only_while_executing (s : ControllerState) (p : Path) :
    (s.currentlyExecutingPlan_ = true →
      pathCallback s p = { state := s, accepted := false }) ∧
    (s.currentlyExecutingPlan_ = false → s.planReceived_ = true →
      p.segment_.isEmpty = false →
      pathCallback s p = { state := s, accepted := true }) := by
  obtain ⟨a, b, c, d, e⟩ := s
  constructor
  · intro hx
    simp_all [pathCallback]
  · intro hx hp he
    simp_all [pathCallback]

/-- C3 amended, at concrete inputs: P2 is rejected while P1 is being
executed, and accepted while P1 is only staged. -/
theorem C3_witness :
    (trackingState.currentlyExecutingPlan_ = true ∧
      pathCallback trackingState planP2
        = { state := trackingState, accepted := false }) ∧
    ((pathCallback initialState planP1).state.currentlyExecutingPlan_
        = false ∧
      (pathCallback initialState planP1).state.planReceived_ = true ∧
      planP2.segment_.isEmpty = false ∧
      pathCallback (pathCallback initialState planP1).state planP2
        = { state := (pathCallback initialState planP1).state
            accepted := true }) :=
  ⟨⟨rfl, (C3_reject_only_while_executing trackingState planP2).1 rfl⟩,
   ⟨rfl, rfl, rfl,
    (C3_reject_only_while_executing
        (pathCallback initialState planP1).state planP2).2 rfl rfl rfl⟩⟩

/-- C4 counterexample: accepting two distinct non-empty plans from the
Idle state produces identical controller states — the accepted plan is
not stored anywhere in the session. -/
theorem C4_counterexample :
    planP1 ≠ planP2 ∧
    pathCallback initialState planP1 = pathCallback initialState planP2 := by
  refine ⟨?_, rfl⟩
  decide

/-- C4 amended: when the callback accepts a non-empty plan while no plan
is being executed (in particular from Idle), the session moves to
PlanStaged — `planReceived_` is set and nothing else changes — but the
plan content itself is not stored: the outcome is the same for every
non-empty plan. -/
theorem C4_accept_stages_without_storing (s : ControllerState) (p q : Path)
    (hx : s.currentlyExecutingPlan_ = false)
    (hp : p.segment_.isEmpty = false) (hq : q.segment_.isEmpty = false) :
    pathCallback s p
        = { state := { s with planReceived_ := true }, accepted := true } ∧
    pathCallback s p = pathCallback s q := by
  simp [pathCallback, hx, hp, hq]

/-- C4 amended, at concrete inputs: submitting P1 or P2 from the initial
state stages a plan and yields the same state either way. -/
theorem C4_witness :
    initialState.currentlyExecutingPlan_ = false ∧
    planP1.segment_.isEmpty = false ∧
    planP2.segment_.isEmpty = false ∧
    (pathCallback initialState planP1
        = { state := { initialState with planReceived_ := true }
            accepted := true } ∧
      pathCallback initialState planP1 = pathCallback initialState planP2) :=
  ⟨rfl, rfl, rfl,
   C4_accept_stages_without_storing initialState planP1 planP2 rfl rfl rfl⟩

/-- C5: from the Tracking state, handling StopTracking clears all three
session flags — status Idle, no current plan — and the external tracker
stop routine `pathTracker_->stopTracking()` is called exactly once. -/
theorem C5_stop_resets_cleanly (s : ControllerState)
    (hx : s.currentlyExecutingPlan_ = true) :
    (controllerCommandService s Command.StopTracking).state.planReceived_
        = false ∧
    (controllerCommandService s
        Command.StopTracking).state.receivedStartTrackingCommand_ = false ∧
    (controllerCommandService s
        Command.StopTracking).state.currentlyExecutingPlan_ = false ∧
    (controllerCommandService s Command.StopTracking).trackerStopCalls = 1 := by
  simp [controllerCommandService, processAbortTrackingCommand, stopTracking, hx]

/-- C5 at a concrete input: the Tracking state. -/
theorem C5_witness :
    trackingState.currentlyExecutingPlan_ = true ∧
    ((controllerCommandService trackingState
          Command.StopTracking).state.planReceived_ = false ∧
      (controllerCommandService trackingState
          Command.StopTracking).state.receivedStartTrackingCommand_ = false ∧
      (controllerCommandService trackingState
          Command.StopTracking).state.currentlyExecutingPlan_ = false ∧
      (controllerCommandService trackingState
          Command.StopTracking).trackerStopCalls = 1) :=
  ⟨rfl, C5_stop_resets_cleanly trackingState rfl⟩

/-- C6: on every tick taken in the Tracking state whose tracker advance
succeeds, the published command is the fixed constant with gear Forward,
steer 0.8 and throttle 0.02, independently of the reported steering
angle and longitudinal velocity, which are universally quantified
here. -/
theorem C6_success_tick_publishes_fixed_constant (s : ControllerState)
    (tr : TrackerTickResult)
    (hp : s.planReceived_ = true) (hr : s.receivedStartTrackingCommand_ = true)
    (hok : tr.advanceOk = true) :
    (advance s tr).published
      = { gear_ := Gear.Forward, steer_ := 0.8, throttle_ := 0.02 } := by
  simp [advance, hp, hr, hok, fixedControl]

/-- C6 at a concrete input: the Tracking state with a successful tracker
advance reporting a non-trivial steering angle and velocity. -/
theorem C6_witness :
    trackingState.planReceived_ = true ∧
    trackingState.receivedStartTrackingCommand_ = true ∧
    TrackerTickResult.advanceOk
        { advanceOk := true, steeringAngle := 3, longitudinalVelocity := 5 }
      = true ∧
    (advance trackingState
        { advanceOk := true, steeringAngle := 3, longitudinalVelocity := 5 }
      ).published
      = { gear_ := Gear.Forward, steer_ := 0.8, throttle_ := 0.02 } :=
  ⟨rfl, rfl, rfl,
   C6_success_tick_publishes_fixed_constant trackingState _ rfl rfl rfl⟩

/-- C7: every rejected input leaves the controller state unchanged — an
empty plan, a plan while one is in flight (plan received, whether staged
or executing), StartTracking without a received plan, StartTracking
while already executing, StopTracking while not executing, and an
unknown command. -/
theorem C7_rejections_leave_state_unchanged (s : ControllerState) :
    (∀ p : Path, p.segment_.isEmpty = true → (pathCallback s p).state = s) ∧
    (∀ p : Path, s.planReceived_ = true → (pathCallback s p).state = s) ∧
    (s.planReceived_ = false →
      (controllerCommandService s Command.StartTracking).state = s) ∧
    (s.currentlyExecutingPlan_ = true →
      (controllerCommandService s Command.StartTracking).state = s) ∧
    (s.currentlyExecutingPlan_ = false →
      (controllerCommandService s Command.StopTracking).state = s) ∧
    (controllerCommandService s Command.Unknown).state = s := by
  obtain ⟨a, b, c, d, e⟩ := s
  refine ⟨fun p hp => ?_, fun p hp => ?_, fun hp => ?_, fun hx => ?_,
    fun hx => ?_, rfl⟩
  · cases c <;> simp_all [pathCallback]
  · cases c
    · simp_all [pathCallback]
      split <;> rfl
    · simp_all [pathCallback]
  · cases c <;>
      simp_all [controllerCommandService, processStartTrackingCommand]
  · cases a <;>
      simp_all [controllerCommandService, processStartTrackingCommand]
  · simp_all [controllerCommandService, processAbortTrackingCommand]

/-- C7 at concrete inputs: an empty plan from the initial state, a plan
while executing, StartTracking from Idle, StartTracking while Tracking,
StopTracking from Idle, and an unknown command. -/
theorem C7_witness :
    (Path.mk List.nil).segment_.isEmpty = true ∧
    (pathCallback initialState (Path.mk List.nil)).state = initialState ∧
    (trackingState.planReceived_ = true ∧
      (pathCallback trackingState planP1).state = trackingState) ∧
    (initialState.planReceived_ = false ∧
      (controllerCommandService initialState
          Command.StartTracking).state = initialState) ∧
    (trackingState.currentlyExecutingPlan_ = true ∧
      (controllerCommandService trackingState
          Command.StartTracking).state = trackingState) ∧
    (initialState.currentlyExecutingPlan_ = false ∧
      (controllerCommandService initialState
          Command.StopTracking).state = initialState) ∧
    (controllerCommandService initialState Command.Unknown).state
      = initialState :=
  ⟨rfl,
   (C7_rejections_leave_state_unchanged initialState).1 (Path.mk List.nil) rfl,
   ⟨rfl, (C7_rejections_leave_state_unchanged trackingState).2.1 planP1 rfl⟩,
   ⟨rfl, (C7_rejections_leave_state_unchanged initialState).2.2.1 rfl⟩,
   ⟨rfl, (C7_rejections_leave_state_unchanged trackingState).2.2.2.1 rfl⟩,
   ⟨rfl, (C7_rejections_leave_state_unchanged initialState).2.2.2.2.1 rfl⟩,
   (C7_rejections_leave_state_unchanged initialState).2.2.2.2.2⟩

/-- C8 counterexample: before any telemetry has been received the
spec-level cache is empty, yet the service answers with the definite
value-initialised pose and twist — exactly the response it gives right
after a genuine observation of the value-initialised odometry — so the
query does not return empty when no telemetry has arrived yet. -/
theorem C8_counterexample :
    telemetryCurrentSpec telemetryInitSpec = none ∧
    currentStateRequestService initialState
      = { state := initialState, pose := {}, twist := {}, ack := true } ∧
    currentStateRequestService (priusStateCallback initialState {})
      = currentStateRequestService initialState :=
  ⟨rfl, rfl, rfl⟩

/-- C8 amended: a state query answers with the pose and twist of the
cached odometry and acknowledges, independent of every session flag;
after telemetry updates the response carries exactly the most recent
observation (last write wins); and the initial cache is the
value-initialised odometry, so before any telemetry the query returns
the all-zero state rather than an empty indication. -/
theorem C8_query_returns_latest_telemetry :
    (∀ s : ControllerState,
      (currentStateRequestService s).pose = s.priusState_.pose ∧
      (currentStateRequestService s).twist = s.priusState_.twist ∧
      (currentStateRequestService s).ack = true) ∧
    (∀ (s : ControllerState) (o o2 : Odometry),
      (currentStateRequestService
          (priusStateCallback (priusStateCallback s o) o2)).pose = o2.pose ∧
      (currentStateRequestService
          (priusStateCallback (priusStateCallback s o) o2)).twist = o2.twist) ∧
    initialState.priusState_ = ({} : Odometry) :=
  ⟨fun _ => ⟨rfl, rfl, rfl⟩, fun _ _ _ => ⟨rfl, rfl⟩, rfl⟩

/-- C9: in every state reachable by any sequence of plan submissions,
command services, control ticks and telemetry updates, the
start-command flag equals the currently-executing flag, and the
currently-executing flag implies the plan-received flag — the three
session flags never drift apart. -/
theorem C9_flag_coherence (s : ControllerState) (h : Reachable s) :
    s.receivedStartTrackingCommand_ = s.currentlyExecutingPlan_ ∧
    (s.currentlyExecutingPlan_ = true → s.planReceived_ = true) := by
  induction h with
  | init => exact ⟨rfl, fun hc => by cases hc⟩
  | plan s p _ ih =>
      unfold pathCallback
      cases hx : s.currentlyExecutingPlan_ <;>
        cases he : p.segment_.isEmpty <;> simp_all
  | command s c _ ih =>
      cases c with
      | StartTracking =>
          simp only [controllerCommandService, processStartTrackingCommand]
          cases hp : s.planReceived_ <;>
            cases hx : s.currentlyExecutingPlan_ <;> simp_all
      | StopTracking =>
          simp only [controllerCommandService, processAbortTrackingCommand,
            stopTracking]
          cases hx : s.currentlyExecutingPlan_ <;> simp_all
      | Unknown => simpa using ih
  | tick s tr _ ih =>
      simp only [advance, stopTracking]
      cases hp : s.planReceived_ <;>
        cases hr : s.receivedStartTrackingCommand_ <;>
        cases hok : tr.advanceOk <;> simp_all
  | telemetry s o _ ih => simpa [priusStateCallback] using ih

/-- C9 at a concrete input: the initial state is reachable and its flags
are coherent. -/
theorem C9_witness :
    Reachable initialState ∧
    (initialState.receivedStartTrackingCommand_
        = initialState.currentlyExecutingPlan_ ∧
      (initialState.currentlyExecutingPlan_ = true →
        initialState.planReceived_ = true)) :=
  ⟨Reachable.init, C9_flag_coherence initialState Reachable.init⟩

/-- C10: a telemetry update changes only the cached odometry — all four
flags are preserved and the new cache is the observation; plan
submission, command handling and control ticks never change the cached
odometry; and answering a state query changes the controller state not
at all. -/
theorem C10_frame_conditions :
    (∀ (s : ControllerState) (o : Odometry),
      (priusStateCallback s o).planReceived_ = s.planReceived_ ∧
      (priusStateCallback s o).receivedStartTrackingCommand_
          = s.receivedStartTrackingCommand_ ∧
      (priusStateCallback s o).currentlyExecutingPlan_
          = s.currentlyExecutingPlan_ ∧
      (priusStateCallback s o).publishTrackingStatus_
          = s.publishTrackingStatus_ ∧
      (priusStateCallback s o).priusState_ = o) ∧
    (∀ (s : ControllerState) (p : Path),
      (pathCallback s p).state.priusState_ = s.priusState_) ∧
    (∀ (s : ControllerState) (c : Command),
      (controllerCommandService s c).state.priusState_ = s.priusState_) ∧
    (∀ (s : ControllerState) (tr : TrackerTickResult),
      (advance s tr).state.priusState_ = s.priusState_) ∧
    (∀ s : ControllerState, (currentStateRequestService s).state = s) := by
  refine ⟨fun s o => ⟨rfl, rfl, rfl, rfl, rfl⟩, fun s p => ?_, fun s c => ?_,
    fun s tr => ?_, fun s => rfl⟩
  · unfold pathCallback
    cases hx : s.currentlyExecutingPlan_ <;>
      cases he : p.segment_.isEmpty <;> simp_all
  · cases c <;>
      simp [controllerCommandService, processStartTrackingCommand,
        processAbortTrackingCommand, stopTracking] <;>
      cases hp : s.planReceived_ <;>
        cases hx : s.currentlyExecutingPlan_ <;> simp_all
  · simp only [advance, stopTracking]
    cases hp : s.planReceived_ <;>
      cases hr : s.receivedStartTrackingCommand_ <;>
      cases hok : tr.advanceOk <;> simp_all

end CarDemo
